import Mathlib

/-
Verification of the Gemini orchestration core of the storyboard-factory
application (the service module embedded in src/App.tsx together with the
entity interfaces of types.ts).

The TypeScript source is shallowly embedded:
 - JavaScript values flowing out of JSON.parse are modelled by `JsValue`;
 - thrown Error objects (with the loosely shaped fields the retry helper
   probes: message, toString(), error.message, status, response.status,
   error.code) are modelled by `JsError`;
 - asynchronous upstream calls are modelled as oracles `Nat → Except JsError R`
   giving the outcome of the k-th physical attempt; `withRetryFrom` threads the
   attempt index and records the backoff waits it would perform, so attempt
   counts and delays are observable;
 - byte buffers (Uint8Array) are lists of Nat < 256; DataView little-endian
   writes are modelled by `leBytes16`/`leBytes32`, which perform the same
   truncation as the JS setUint16/setUint32;
 - JSON.parse itself is environment-provided: functions that parse a response
   body take the parse outcome as an explicit `Option JsValue` argument
   (`none` models a thrown SyntaxError).
-/

/-- JavaScript/JSON value universe for provider responses. Numbers are
modelled as integers (every number the analysed code inspects is an
integer panel index). -/
inductive JsValue where
  | null : JsValue
  | bool (b : Bool) : JsValue
  | num (n : Int) : JsValue
  | str (s : String) : JsValue
  | arr (elems : List JsValue) : JsValue
  | obj (fields : List (String × JsValue)) : JsValue

/-- Member access `v.key` on a parsed JSON value. Property access on null
throws a TypeError, modelled as the error case (among JSON.parse outputs,
null is the only value on which access throws); on objects it is a lookup
(field names of a JSON.parse result are unique); on every other value it
yields `undefined` (none). -/
def jsGetField : JsValue → String → Except Unit (Option JsValue)
  | JsValue.null, _ => Except.error ()
  | JsValue.obj fields, key =>
    Except.ok ((fields.find? (fun f => f.fst == key)).map (fun f => f.snd))
  | _, _ => Except.ok none

/-- JavaScript truthiness of a value. -/
def jsTruthy : JsValue → Bool
  | JsValue.null => false
  | JsValue.bool b => b
  | JsValue.num n => n != 0
  | JsValue.str s => s != ""
  | JsValue.arr _ => true
  | JsValue.obj _ => true

/-- Array.isArray. -/
def jsIsArray : JsValue → Bool
  | JsValue.arr _ => true
  | _ => false

/-- Does `v.key` exist and hold a string (the `typeof x === "string"` test,
on a value whose member access succeeds)? -/
def fieldIsStr (v : JsValue) (key : String) : Bool :=
  match jsGetField v key with
  | Except.ok (some (JsValue.str _)) => true
  | _ => false

/-- Does `v.key` exist and hold a number (the `typeof x === "number"` test,
on a value whose member access succeeds)? -/
def fieldIsNum (v : JsValue) (key : String) : Bool :=
  match jsGetField v key with
  | Except.ok (some (JsValue.num _)) => true
  | _ => false

/-- Does `v.key` exist and hold an array (the `Array.isArray(x)` test, on a
value whose member access succeeds)? -/
def fieldIsArr (v : JsValue) (key : String) : Bool :=
  match jsGetField v key with
  | Except.ok (some x) => jsIsArray x
  | _ => false

mutual

/-- How Array.prototype.join renders one element: null renders empty,
nested arrays render as their comma-join, objects as "[object Object]". -/
def jsJoinElem : JsValue → String
  | JsValue.null => ""
  | JsValue.bool b => if b then "true" else "false"
  | JsValue.num n => toString n
  | JsValue.str s => s
  | JsValue.arr xs => jsArrJoin xs
  | JsValue.obj _ => "[object Object]"

/-- Comma-join of a nested array (Array.prototype.toString). -/
def jsArrJoin : List JsValue → String
  | [] => ""
  | [x] => jsJoinElem x
  | x :: y :: rest => jsJoinElem x ++ "," ++ jsArrJoin (y :: rest)

end

/-- Truthiness of a `string | undefined` JavaScript value: undefined and
the empty string are falsy. -/
def truthyStr : Option String → Bool
  | none => false
  | some s => s != ""

/-- Template-literal interpolation of a possibly-undefined string. -/
def optStr (o : Option String) : String := o.getD "undefined"

/-- Prefix test on character lists (helper for the substring check). -/
def leadMatch : List Char → List Char → Bool
  | [], _ => true
  | _ :: _, [] => false
  | a :: as, b :: bs => a == b && leadMatch as bs

/-- Occurrence test: does the needle occur (contiguously) in the haystack? -/
def scanFor (needle : List Char) : List Char → Bool
  | [] => leadMatch needle []
  | b :: bs => leadMatch needle (b :: bs) || scanFor needle bs

/-- String.prototype.includes -- `includes s sub` is JS `s.includes(sub)`. -/
def includes (s sub : String) : Bool := scanFor sub.data s.data

/-- UTF-16 width of a character (astral-plane characters occupy two units). -/
def utf16Len (c : Char) : Nat := if c.toNat < 65536 then 1 else 2

/-- Take a prefix of at most `n` UTF-16 code units. When the cut would fall
inside a surrogate pair, JS keeps a lone surrogate; that unpaired half is
not representable as a scalar value, so the model stops just before it. -/
def jsSubstrAux : List Char → Nat → List Char
  | _, 0 => []
  | [], _ => []
  | c :: cs, n + 1 =>
    if utf16Len c ≤ n + 1 then c :: jsSubstrAux cs (n + 1 - utf16Len c) else []

/-- String.prototype.substring(0, n) measured in UTF-16 code units. -/
def jsSubstr (s : String) (n : Nat) : String := String.mk (jsSubstrAux s.data n)

/-- Shape of a thrown error as probed by the retry helper. `message` models
`error.message`, `toStr` models `error.toString()`, `errorMessage` models
`error.error?.message`, `status`/`responseStatus`/`errorCode` model
`error.status` / `error.response?.status` / `error.error?.code`
(`none` = field absent). -/
structure JsError where
  message : Option String
  toStr : String
  errorMessage : Option String
  status : Option Nat
  responseStatus : Option Nat
  errorCode : Option Nat

/-- A `new Error(m)` object: message m, toString() "Error: m", no nested
error object, no status fields. -/
def mkError (m : String) : JsError :=
  ⟨some m, "Error: " ++ m, none, none, none, none⟩

/-- Message extraction of withRetry:
`let msg = error.message || error.toString() || ''` followed by
appending `' ' + error.error.message` when the nested message is truthy. -/
def errMsg (e : JsError) : String :=
  let base := if truthyStr e.message then e.message.getD "" else e.toStr
  match e.errorMessage with
  | some m2 => if m2 == "" then base else base ++ " " ++ m2
  | none => base

/-- Numeric `||` of withRetry's status chain: 0 is falsy and falls through. -/
def jsOrNum (a b : Option Nat) : Option Nat :=
  match a with
  | some n => if n == 0 then b else some n
  | none => b

/-- Status extraction of withRetry:
`error.status || error.response?.status || error.error?.code`. -/
def errStatus (e : JsError) : Option Nat :=
  jsOrNum e.status (jsOrNum e.responseStatus e.errorCode)

/-- Transience classification of withRetry: server status 500/502/503/504,
or one of six fixed network-failure substrings in the extracted message. -/
def isTransient (e : JsError) : Bool :=
  let msg := errMsg e
  let status := errStatus e
  status == some 500 ||
  status == some 503 ||
  status == some 502 ||
  status == some 504 ||
  includes msg "Rpc failed" ||
  includes msg "xhr error" ||
  includes msg "fetch failed" ||
  includes msg "NetworkError" ||
  includes msg "Load failed" ||
  includes msg "network timeout"

/-- Observable outcome of a withRetry run: the settled result, the number of
physical attempts performed, and the list of backoff waits (ms), in order. -/
structure RunResult (α : Type) where
  result : Except JsError α
  attempts : Nat
  delays : List Nat

/-- withRetry of the source, with the attempt index `k` made explicit so the
oracle `fn` can give each physical attempt its own outcome. The source guard
`retries > 0 && isTransient` is rendered as a match on `retries`: with no
retries left the error is rethrown regardless of transience. On a retry the
helper waits `delay` then recurses with `retries - 1` and `delay * 2`. -/
def withRetryFrom {α : Type} (fn : Nat → Except JsError α) (k retries delay : Nat) :
    RunResult α :=
  match fn k with
  | Except.ok v => ⟨Except.ok v, 1, []⟩
  | Except.error e =>
    match retries with
    | 0 => ⟨Except.error e, 1, []⟩
    | r + 1 =>
      if isTransient e then
        let rest := withRetryFrom fn (k + 1) r (delay * 2)
        ⟨rest.result, rest.attempts + 1, delay :: rest.delays⟩
      else
        ⟨Except.error e, 1, []⟩

/-- withRetry entry point (attempt index 0). The source signature defaults
`retries` to 3 and `delay` to 2000. -/
def withRetry {α : Type} (fn : Nat → Except JsError α) (retries delay : Nat) :
    RunResult α :=
  withRetryFrom fn 0 retries delay

/-- withRetry applied with the source's default parameters
(retries = 3, delay = 2000 ms). -/
def withRetryDefault {α : Type} (fn : Nat → Except JsError α) : RunResult α :=
  withRetry fn 3 2000

/-- getAI: credential resolution. `localKey` models
`localStorage.getItem("gemini_api_key")` (the stored override), `envKey`
models `process.env.API_KEY`; `localKey || envKey` prefers the truthy
override, and a falsy result throws before any client is constructed. -/
def getAI (localKey envKey : Option String) : Except JsError String :=
  let key := if truthyStr localKey then localKey else envKey
  if truthyStr key then
    Except.ok (key.getD "")
  else
    Except.error (mkError "API Key is missing. Please set it in Settings.")

/-- Character entity of types.ts. -/
structure Character where
  id : String
  name : String
  description : String
  visualPrompt : String
  imageUrl : Option String
  defaultVoice : Option String

/-- Scene entity of types.ts. -/
structure Scene where
  id : String
  name : String
  description : String
  visualPrompt : String
  imageUrl : Option String
  gridUrl : Option String

/-- Partial<Character>: every field possibly undefined (the prompt
constructors interpolate the fields they use, so an undefined field
renders as the string "undefined"). -/
structure PartialCharacter where
  id : Option String
  name : Option String
  description : Option String
  visualPrompt : Option String
  imageUrl : Option String
  defaultVoice : Option String

/-- Partial<Scene>. -/
structure PartialScene where
  id : Option String
  name : Option String
  description : Option String
  visualPrompt : Option String
  imageUrl : Option String
  gridUrl : Option String

/-- ScriptPanel of types.ts, as populated by analyzeScript (which always
supplies dialogue and cameraAngle strings). The panel number is a JS
number, modelled as an integer. -/
structure ScriptPanel where
  panelNumber : Int
  description : String
  charactersPresent : List String
  dialogue : String
  cameraAngle : String

/-- Text-bearing provider response (GenerateContentResponse restricted to
the `.text` accessor the world-info and script analysis paths read;
`none` models an absent text part). -/
structure GenResp where
  text : Option String

/-- Result record of extractWorldInfo. The two fields hold the raw parsed
JSON values the source casts to Partial<Character>[] / Partial<Scene>[]. -/
structure WorldInfo where
  characters : JsValue
  scenes : JsValue

/-- JS `x || []` applied to a member access outcome. -/
def orEmptyArr (o : Option JsValue) : JsValue :=
  match o with
  | some v => if jsTruthy v then v else JsValue.arr []
  | none => JsValue.arr []

/-- extractWorldInfo: checks the credential, performs the model call through
withRetry (default 3 retries, 2000 ms base), throws
"Failed to analyze script entities" when the response text is falsy, then
parses it; a parse failure (`parse = none`, modelling a JSON.parse
exception) throws "Invalid JSON response from AI", and so does a parsed
null body, on which the source's member access `result.characters` throws
a TypeError inside the same try/catch; on success the `characters` and
`scenes` members default to `[]` when falsy/missing.
`parse` is the environment-provided outcome of JSON.parse on the text. -/
def extractWorldInfo (localKey envKey : Option String)
    (fn : Nat → Except JsError GenResp) (parse : Option JsValue) :
    Except JsError WorldInfo :=
  match getAI localKey envKey with
  | Except.error e => Except.error e
  | Except.ok _ =>
    match (withRetry fn 3 2000).result with
    | Except.error e => Except.error e
    | Except.ok r =>
      if truthyStr r.text then
        match parse with
        | none => Except.error (mkError "Invalid JSON response from AI")
        | some v =>
          match jsGetField v "characters" with
          | Except.error _ => Except.error (mkError "Invalid JSON response from AI")
          | Except.ok cf =>
            match jsGetField v "scenes" with
            | Except.error _ => Except.error (mkError "Invalid JSON response from AI")
            | Except.ok sf => Except.ok ⟨orEmptyArr cf, orEmptyArr sf⟩
      else
        Except.error (mkError "Failed to analyze script entities")

/-- Raw `visual_action` member of a panel element (empty when absent or
not a string, matching the source's typeof guard). -/
def descRaw (p : JsValue) : String :=
  match jsGetField p "visual_action" with
  | Except.ok (some (JsValue.str s)) => s
  | _ => ""

/-- Raw `dialogue_text` member (empty when absent or not a string). -/
def dialogueOf (p : JsValue) : String :=
  match jsGetField p "dialogue_text" with
  | Except.ok (some (JsValue.str s)) => s
  | _ => ""

/-- `characters_in_shot` member when it is an array, else `[]`. The
elements are rendered with the join coercion under which the source
reads them (`chars.join('&')`); the response schema constrains them to
strings, on which the coercion is the identity. -/
def charsOf (p : JsValue) : List String :=
  match jsGetField p "characters_in_shot" with
  | Except.ok (some (JsValue.arr xs)) => xs.map jsJoinElem
  | _ => []

/-- Guard of the recovery heuristic:
`!desc || desc.trim().length === 0 || desc === "No description generated."`. -/
def descNeedsFallback (p : JsValue) : Bool :=
  let d := descRaw p
  d == "" || d.trim.length == 0 || d == "No description generated."

/-- Synthesized replacement description: with truthy dialogue,
`` `${chars.join('&') || 'Character'} saying: "${dialogue.substring(0, 15)}...". Cinematic lighting, detailed expression.` ``;
without dialogue, a generic establishing shot. -/
def synthDesc (p : JsValue) : String :=
  let dialogue := dialogueOf p
  if dialogue == "" then
    "Cinematic establishing shot, detailed environment, 8k resolution."
  else
    let joined := String.intercalate "&" (charsOf p)
    (if joined == "" then "Character" else joined) ++
      " saying: \"" ++ jsSubstr dialogue 15 ++
      "...\". Cinematic lighting, detailed expression."

/-- The normalized ScriptPanel for an element on which member access
succeeds: non-number panel_id defaults to 0, the description falls back to
the synthesized one, non-string shot_type defaults to "Medium Shot". -/
def panelFields (p : JsValue) : ScriptPanel :=
  { panelNumber :=
      match jsGetField p "panel_id" with
      | Except.ok (some (JsValue.num n)) => n
      | _ => 0
  , description := if descNeedsFallback p then synthDesc p else descRaw p
  , charactersPresent := charsOf p
  , dialogue := dialogueOf p
  , cameraAngle :=
      match jsGetField p "shot_type" with
      | Except.ok (some (JsValue.str s)) => s
      | _ => "Medium Shot" }

/-- Normalization of one parsed panel element. The callback's very first
member access (the typeof test on `p.visual_action`) throws a TypeError on
a null element, aborting the surrounding map; on every other parsed value
all member accesses succeed and the normalized panel is produced. -/
def panelOfJs (p : JsValue) : Except Unit ScriptPanel :=
  match jsGetField p "visual_action" with
  | Except.error e => Except.error e
  | Except.ok _ => Except.ok (panelFields p)

/-- analyzeScript: credential check, model call through withRetry (default
3 retries, 2000 ms base), "Failed to analyze script" when the response text
is falsy, "Invalid JSON response from AI" when JSON.parse throws; a parsed
array is normalized element-wise by `panelOfJs`, and a TypeError thrown by
the map callback on a null element is caught by the same try/catch and
surfaced as the invalid-JSON error; any non-array parse result yields the
empty panel list (the non-array path performs no member access). -/
def analyzeScript (localKey envKey : Option String)
    (fn : Nat → Except JsError GenResp) (parse : Option JsValue) :
    Except JsError (List ScriptPanel) :=
  match getAI localKey envKey with
  | Except.error e => Except.error e
  | Except.ok _ =>
    match (withRetry fn 3 2000).result with
    | Except.error e => Except.error e
    | Except.ok r =>
      if truthyStr r.text then
        match parse with
        | none => Except.error (mkError "Invalid JSON response from AI")
        | some (JsValue.arr xs) =>
          match xs.mapM panelOfJs with
          | Except.error _ => Except.error (mkError "Invalid JSON response from AI")
          | Except.ok panels => Except.ok panels
        | some _ => Except.ok []
      else
        Except.error (mkError "Failed to analyze script")

/-- constructCharacterPrompt: fixed model-sheet template merging the
character's name and visual DNA, trimmed. -/
def constructCharacterPrompt (char : PartialCharacter) : String :=
  ("\n[Art Type] **Production Character Model Sheet (Settei)**.\n[Subject] Name: "
    ++ optStr char.name
    ++ ".\n[Visual DNA] "
    ++ optStr char.visualPrompt
    ++ ".\n[Layout] **Horizontal Composition** on Technical Grid Background.\n1. **Left**: Full body Standing pose (Front View).\n2. **Center**: Full body Profile pose (Side View).\n3. **Right**: Full body (Back View).\n4. **Inserts**: Include 2 close-up sketches of facial expressions (Eyes/Face) and 1 detail of clothing/accessory in the corners.\n[Background] White/Light Grey background with technical measurement grid lines.\n[Style] Professional Anime Character Design, Flat colors, Clean lines, Reference Art, High Quality 4k.\n  ").trim

/-- constructScenePrompt: wide-angle panorama template, no characters. -/
def constructScenePrompt (scene : PartialScene) : String :=
  ("\n    [Type] Wide-angle Concept Art.\n    [Location] "
    ++ optStr scene.name
    ++ ".\n    [Visuals] "
    ++ optStr scene.visualPrompt
    ++ ".\n    [Quality] Masterpiece, Cinematic Lighting, 8k, Makoto Shinkai Style.\n    [Style] Anime Background Art.\n    No characters.\n  ").trim

/-- constructSceneGridPrompt: nine-panel detail-grid template. -/
def constructSceneGridPrompt (scene : PartialScene) : String :=
  ("\n    [Type] 9-Panel Grid Concept Sheet.\n    [Subject] Details of "
    ++ optStr scene.name
    ++ ".\n    [Visuals] "
    ++ optStr scene.visualPrompt
    ++ ".\n    [Content] Close-ups of props, textures, lighting, corners.\n    [Style] Technical concept art.\n  ").trim

/-- Fuzzy roster lookup of constructPanelPrompt:
`characters.find(c => c.name === charName || charName.includes(c.name) || c.name.includes(charName))`. -/
def resolveChar (characters : List Character) (charName : String) : Option Character :=
  characters.find? (fun c =>
    c.name == charName || includes charName c.name || includes c.name charName)

/-- One line of the [CHARACTERS] section: the matched character's visual
DNA, or the generic placeholder when no roster entry matches. -/
def charLine (characters : List Character) (charName : String) : String :=
  match resolveChar characters charName with
  | some c => "\n- (" ++ charName ++ "): " ++ c.visualPrompt
  | none => "\n- (" ++ charName ++ "): Generic anime character."

/-- constructPanelPrompt: style preamble, action/shot section, location
section (bound scene's DNA or a generic ambience line), then a
[CHARACTERS] section iterating the panel's name list (the source's
Array.isArray guard is the identity on a string list). -/
def constructPanelPrompt (panel : ScriptPanel) (characters : List Character)
    (scene : Option Scene) : String :=
  let p1 := "(Anime Style Masterpiece, 8k Resolution, Cinematic Composition). "
  let p2 := p1 ++ "\n[ACTION & SHOT] **" ++ panel.cameraAngle ++ "**. "
    ++ panel.description ++ ". "
  let p3 := p2 ++
    (match scene with
     | some s => "\n[LOCATION] " ++ s.visualPrompt ++ " (Name: " ++ s.name
         ++ "). Detailed background. "
     | none => "\n[LOCATION] Atmospheric background, matching the mood. ")
  let safe := panel.charactersPresent
  if safe.length > 0 then
    safe.foldl (fun acc nm => acc ++ charLine characters nm) (p3 ++ "\n[CHARACTERS]:")
  else
    p3

/-- Content part of a Tier-1 image response: `inlineData` models an inline
image payload (its base64 data) and `text` a text part. -/
structure GenPart where
  inlineData : Option String
  text : Option String

/-- Tier-1 response restricted to what generateImage reads:
`response.candidates?.[0]?.content?.parts || []`. -/
structure Tier1Resp where
  parts : List GenPart

/-- Tier-2 (generateImages) response restricted to what generateImage
reads: `response.generatedImages?.[0]?.image?.imageBytes`. -/
structure Tier2Resp where
  imageBytes : Option String

/-- Tier-1 request as assembled by generateImage. -/
structure Tier1Request where
  model : String
  prompt : String
  aspectRatio : String

/-- Tier-2 request as assembled by generateImage. -/
structure Tier2Request where
  model : String
  prompt : String
  numberOfImages : Nat
  aspectRatio : String
  outputMimeType : String

/-- The Tier-2 request generateImage builds for a prompt and aspect ratio:
the dedicated image model, exactly one image, JPEG output. -/
def tier2RequestOf (prompt aspectRatio : String) : Tier2Request :=
  ⟨"imagen-3.0-generate-001", prompt, 1, aspectRatio, "image/jpeg"⟩

/-- Diagnostic captured from a Tier-1 response that contained no image:
the leading 100 UTF-16 units of the first truthy text part as an
"AI Refusal", else the generic empty-data message. -/
def refusalDiag (resp : Tier1Resp) : JsError :=
  match resp.parts.find? (fun p => truthyStr p.text) with
  | some p => mkError ("AI Refusal: " ++ jsSubstr (p.text.getD "") 100 ++ "...")
  | none => mkError "API returned empty data."

/-- generateImage: credential check, then Tier 1 (primary model, 2 retries):
an inline image part returns a PNG data URI; otherwise the refusal/empty
diagnostic (or the thrown error) is captured as lastError and Tier 2 runs
(dedicated image model, 2 retries, one JPEG image at the requested aspect
ratio): truthy imageBytes returns a JPEG data URI; in every remaining case
the captured Tier-1 lastError is thrown (the source's trailing
`|| new Error(...)` is dead: lastError is always a truthy Error object). -/
def generateImage (localKey envKey : Option String) (prompt aspectRatio : String)
    (call1 : Tier1Request → Nat → Except JsError Tier1Resp)
    (call2 : Tier2Request → Nat → Except JsError Tier2Resp) :
    Except JsError String :=
  match getAI localKey envKey with
  | Except.error e => Except.error e
  | Except.ok _ =>
    let tier2 : JsError → Except JsError String := fun lastError =>
      match (withRetry (call2 (tier2RequestOf prompt aspectRatio)) 2 2000).result with
      | Except.ok r2 =>
        match r2.imageBytes with
        | some b =>
          if b == "" then Except.error lastError
          else Except.ok ("data:image/jpeg;base64," ++ b)
        | none => Except.error lastError
      | Except.error _ => Except.error lastError
    match (withRetry (call1 ⟨"gemini-2.5-flash-image", prompt, aspectRatio⟩) 2 2000).result with
    | Except.ok resp =>
      match resp.parts.find? (fun p => p.inlineData.isSome) with
      | some p => Except.ok ("data:image/png;base64," ++ p.inlineData.getD "")
      | none => tier2 (refusalDiag resp)
    | Except.error e => tier2 e

/-- writeString of the source: the UTF-16 unit of each character, written
through setUint8 (mod 256); identity bytes for the ASCII tags used. -/
def writeString (s : String) : List Nat := s.data.map (fun c => c.toNat % 256)

/-- Little-endian bytes of setUint16 (wraps modulo 2^16). -/
def leBytes16 (v : Nat) : List Nat := [v % 256, v / 256 % 256]

/-- Little-endian bytes of setUint32 (wraps modulo 2^32). -/
def leBytes32 (v : Nat) : List Nat :=
  [v % 256, v / 256 % 256, v / 65536 % 256, v / 16777216 % 256]

/-- createWavHeader: the 44-byte RIFF/WAVE header followed by the payload.
The DataView writes of the source populate offsets 0-43 contiguously in
this order; `bitsPerSample / 8` is exact for the 16-bit format used. -/
def createWavHeader (pcmData : List Nat) (sampleRate numChannels bitsPerSample : Nat) :
    List Nat :=
  let dataSize := pcmData.length
  let fileSize := 36 + dataSize
  let byteRate := sampleRate * numChannels * (bitsPerSample / 8)
  let blockAlign := numChannels * (bitsPerSample / 8)
  writeString "RIFF"
    ++ leBytes32 fileSize
    ++ writeString "WAVE"
    ++ writeString "fmt "
    ++ leBytes32 16
    ++ leBytes16 1
    ++ leBytes16 numChannels
    ++ leBytes32 sampleRate
    ++ leBytes32 byteRate
    ++ leBytes16 blockAlign
    ++ leBytes16 bitsPerSample
    ++ writeString "data"
    ++ leBytes32 dataSize
    ++ pcmData

/-- pcmBase64ToWavUrl: wraps the decoded PCM payload in a WAV container at
the hardcoded 24000 Hz, mono, 16-bit format. The base64 decode (atob) and
the object-URL creation are environment boundaries: the model takes the
decoded bytes and yields the WAV byte stream backing the blob URL. -/
def pcmBase64ToWavUrl (pcmBytes : List Nat) : List Nat :=
  createWavHeader pcmBytes 24000 1 16

/-- Speech response restricted to what generateSpeech reads:
`candidates?.[0]?.content?.parts?.[0]?.inlineData?.data`, given here
already base64-decoded (none = absent; [] = empty payload, which the
source's falsy check treats like absence). -/
structure SpeechResp where
  audioData : Option (List Nat)

/-- generateSpeech: credential check, speech call through withRetry
(2 retries), "AI did not return audio data." when the payload is falsy,
else the WAV encoding of the PCM payload. -/
def generateSpeech (localKey envKey : Option String)
    (fn : Nat → Except JsError SpeechResp) : Except JsError (List Nat) :=
  match getAI localKey envKey with
  | Except.error e => Except.error e
  | Except.ok _ =>
    match (withRetry fn 2 2000).result with
    | Except.error e => Except.error e
    | Except.ok r =>
      match r.audioData with
      | none => Except.error (mkError "AI did not return audio data.")
      | some bytes =>
        if bytes.length == 0 then Except.error (mkError "AI did not return audio data.")
        else Except.ok (pcmBase64ToWavUrl bytes)

/-- Byte accessor on a byte list (reads past the end give 0, matching a
measurement that never happens in the stated bounds). -/
def byteAt : List Nat → Nat → Nat
  | [], _ => 0
  | b :: _, 0 => b
  | _ :: rest, n + 1 => byteAt rest n

/-- Little-endian uint16 read at a byte offset. -/
def readLE16 (bs : List Nat) (i : Nat) : Nat :=
  byteAt bs i + 256 * byteAt bs (i + 1)

/-- Little-endian uint32 read at a byte offset. -/
def readLE32 (bs : List Nat) (i : Nat) : Nat :=
  byteAt bs i + 256 * byteAt bs (i + 1) + 65536 * byteAt bs (i + 2) +
    16777216 * byteAt bs (i + 3)

theorem range_pow_cons (N d : Nat) :
    d :: (List.range N).map (fun i => d * 2 * 2 ^ i) =
    (List.range (N + 1)).map (fun i => d * 2 ^ i) := by
  simp only [List.range_succ_eq_map, List.map_cons, List.map_map, pow_zero, mul_one]
  refine congrArg₂ List.cons rfl ?_
  apply List.map_congr_left
  intro i _
  simp only [Function.comp_apply, pow_succ]
  ring

theorem withRetryFrom_ok {α : Type} (fn : Nat → Except JsError α) (k r d : Nat) (v : α)
    (h : fn k = Except.ok v) : withRetryFrom fn k r d = ⟨Except.ok v, 1, []⟩ := by
  rw [withRetryFrom, h]

theorem withRetryFrom_err0 {α : Type} (fn : Nat → Except JsError α) (k d : Nat)
    (e : JsError) (h : fn k = Except.error e) :
    withRetryFrom fn k 0 d = ⟨Except.error e, 1, []⟩ := by
  rw [withRetryFrom, h]

theorem withRetryFrom_errS {α : Type} (fn : Nat → Except JsError α) (k r d : Nat)
    (e : JsError) (h : fn k = Except.error e) :
    withRetryFrom fn k (r + 1) d =
      if isTransient e then
        ⟨(withRetryFrom fn (k + 1) r (d * 2)).result,
         (withRetryFrom fn (k + 1) r (d * 2)).attempts + 1,
         d :: (withRetryFrom fn (k + 1) r (d * 2)).delays⟩
      else ⟨Except.error e, 1, []⟩ := by
  rw [withRetryFrom, h]

theorem withRetryFrom_allTransient {α : Type} (fn : Nat → Except JsError α)
    (h : ∀ j, ∃ e, fn j = Except.error e ∧ isTransient e = true) :
    ∀ N k d : Nat,
      (withRetryFrom fn k N d).attempts = N + 1 ∧
      (withRetryFrom fn k N d).delays = (List.range N).map (fun i => d * 2 ^ i) := by
  intro N
  induction N with
  | zero =>
    intro k d
    obtain ⟨e, he, _⟩ := h k
    rw [withRetryFrom_err0 fn k d e he]
    exact ⟨rfl, rfl⟩
  | succ n ih =>
    intro k d
    obtain ⟨e, he, ht⟩ := h k
    have hrec := ih (k + 1) (d * 2)
    rw [withRetryFrom_errS fn k n d e he, if_pos ht]
    constructor
    · show (withRetryFrom fn (k + 1) n (d * 2)).attempts + 1 = n + 1 + 1
      rw [hrec.1]
    · show d :: (withRetryFrom fn (k + 1) n (d * 2)).delays =
        (List.range (n + 1)).map (fun i => d * 2 ^ i)
      rw [hrec.2]
      exact range_pow_cons n d

theorem withRetryFrom_exhausted {α : Type} (fn : Nat → Except JsError α) (e : JsError) :
    ∀ N k d : Nat,
      (∀ j, j < N → ∃ e2, fn (k + j) = Except.error e2 ∧ isTransient e2 = true) →
      fn (k + N) = Except.error e →
      (withRetryFrom fn k N d).result = Except.error e := by
  intro N
  induction N with
  | zero =>
    intro k d _ hN
    rw [Nat.add_zero] at hN
    rw [withRetryFrom_err0 fn k d e hN]
  | succ n ih =>
    intro k d hlt hN
    obtain ⟨e0, he0, ht0⟩ := hlt 0 (by omega)
    rw [Nat.add_zero] at he0
    have hrec := ih (k + 1) (d * 2)
      (fun j hj => by
        obtain ⟨e2, h2, t2⟩ := hlt (j + 1) (by omega)
        refine ⟨e2, ?_, t2⟩
        rwa [show k + 1 + j = k + (j + 1) by omega])
      (by rwa [show k + 1 + n = k + (n + 1) by omega])
    rw [withRetryFrom_errS fn k n d e0 he0, if_pos ht0]
    exact hrec

theorem byteAt_zero (b : Nat) (l : List Nat) : byteAt (b :: l) 0 = b := rfl

theorem byteAt_succ (b : Nat) (l : List Nat) (n : Nat) :
    byteAt (b :: l) (n + 1) = byteAt l n := rfl

theorem wavChain (pcm : List Nat) (sr ch bits : Nat) :
    createWavHeader pcm sr ch bits =
    82 :: 73 :: 70 :: 70 ::
    ((36 + pcm.length) % 256) :: ((36 + pcm.length) / 256 % 256) ::
    ((36 + pcm.length) / 65536 % 256) :: ((36 + pcm.length) / 16777216 % 256) ::
    87 :: 65 :: 86 :: 69 ::
    102 :: 109 :: 116 :: 32 ::
    16 :: 0 :: 0 :: 0 ::
    1 :: 0 ::
    (ch % 256) :: (ch / 256 % 256) ::
    (sr % 256) :: (sr / 256 % 256) :: (sr / 65536 % 256) :: (sr / 16777216 % 256) ::
    (sr * ch * (bits / 8) % 256) :: (sr * ch * (bits / 8) / 256 % 256) ::
    (sr * ch * (bits / 8) / 65536 % 256) :: (sr * ch * (bits / 8) / 16777216 % 256) ::
    (ch * (bits / 8) % 256) :: (ch * (bits / 8) / 256 % 256) ::
    (bits % 256) :: (bits / 256 % 256) ::
    100 :: 97 :: 116 :: 97 ::
    (pcm.length % 256) :: (pcm.length / 256 % 256) ::
    (pcm.length / 65536 % 256) :: (pcm.length / 16777216 % 256) ::
    pcm := by
  rfl

/-- C1: for every PCM payload of length L bytes (and any in-range format
parameters), the WAV encoding used by pcmBase64ToWavUrl in generateSpeech
produces a byte array of length L+44 whose first 44 bytes form the
canonical RIFF/WAVE header: 'RIFF', LE32 36+L, 'WAVE', subchunk1Size 16,
audioFormat 1 (PCM), the channel count, the sample rate,
byteRate = sampleRate*channels*bitsPerSample/8,
blockAlign = channels*bitsPerSample/8, 'data', LE32 L; bytes 44 onward are
the payload byte-for-byte; and pcmBase64ToWavUrl applies it at 24000 Hz,
mono, 16-bit. -/
theorem createWavHeader_canonical (pcm : List Nat) (sr ch bits : Nat)
    (hL : 36 + pcm.length < 4294967296)
    (hsr : sr < 4294967296)
    (hch : ch < 65536)
    (hbr : sr * ch * (bits / 8) < 4294967296)
    (hba : ch * (bits / 8) < 65536) :
    (createWavHeader pcm sr ch bits).length = pcm.length + 44 ∧
    (createWavHeader pcm sr ch bits).take 4 = writeString "RIFF" ∧
    readLE32 (createWavHeader pcm sr ch bits) 4 = 36 + pcm.length ∧
    ((createWavHeader pcm sr ch bits).drop 8).take 4 = writeString "WAVE" ∧
    readLE32 (createWavHeader pcm sr ch bits) 16 = 16 ∧
    readLE16 (createWavHeader pcm sr ch bits) 20 = 1 ∧
    readLE16 (createWavHeader pcm sr ch bits) 22 = ch ∧
    readLE32 (createWavHeader pcm sr ch bits) 24 = sr ∧
    readLE32 (createWavHeader pcm sr ch bits) 28 = sr * ch * (bits / 8) ∧
    readLE16 (createWavHeader pcm sr ch bits) 32 = ch * (bits / 8) ∧
    ((createWavHeader pcm sr ch bits).drop 36).take 4 = writeString "data" ∧
    readLE32 (createWavHeader pcm sr ch bits) 40 = pcm.length ∧
    (createWavHeader pcm sr ch bits).drop 44 = pcm ∧
    pcmBase64ToWavUrl pcm = createWavHeader pcm 24000 1 16 := by
  rw [wavChain pcm sr ch bits]
  refine ⟨rfl, rfl, ?_, rfl, ?_, ?_, ?_, ?_, ?_, ?_, rfl, ?_, rfl, rfl⟩
  · simp only [readLE32, byteAt_succ, byteAt_zero]
    omega
  · simp only [readLE32, byteAt_succ, byteAt_zero]
  · simp only [readLE16, byteAt_succ, byteAt_zero]
  · simp only [readLE16, byteAt_succ, byteAt_zero]
    omega
  · simp only [readLE32, byteAt_succ, byteAt_zero]
    omega
  · simp only [readLE32, byteAt_succ, byteAt_zero]
    omega
  · simp only [readLE16, byteAt_succ, byteAt_zero]
    omega
  · simp only [readLE32, byteAt_succ, byteAt_zero]
    omega

theorem createWavHeader_canonical_witness :
    readLE32 (createWavHeader [7, 8, 9] 24000 1 16) 24 = 24000 :=
  (createWavHeader_canonical [7, 8, 9] 24000 1 16 (by decide) (by decide)
    (by decide) (by decide) (by decide)).2.2.2.2.2.2.2.1

/-- C2: when every attempt fails with a transient failure, withRetry with
retry budget N and base delay d performs exactly N+1 attempts (hence at
most N+1), and the recorded wait before attempt k+1 is d * 2^k; the
source's default parameters are retries = 3 and delay = 2000 ms
(withRetryDefault), while the image and speech call sites pass retries = 2
(see generateImage and generateSpeech), giving 3 attempts. -/
theorem withRetry_transient_backoff {α : Type} (fn : Nat → Except JsError α)
    (N d : Nat)
    (h : ∀ j, ∃ e, fn j = Except.error e ∧ isTransient e = true) :
    (withRetry fn N d).attempts = N + 1 ∧
    (withRetry fn N d).delays = (List.range N).map (fun k => d * 2 ^ k) ∧
    withRetryDefault fn = withRetry fn 3 2000 ∧
    (withRetry fn 2 2000).attempts = 3 :=
  ⟨(withRetryFrom_allTransient fn h N 0 d).1,
    (withRetryFrom_allTransient fn h N 0 d).2, rfl,
    (withRetryFrom_allTransient fn h 2 0 2000).1⟩

theorem withRetry_transient_backoff_witness :
    (withRetry (fun _ => (Except.error ⟨none, "", none, some 500, none, none⟩ :
        Except JsError Unit)) 3 2000).delays = [2000, 4000, 8000] := by
  rw [(withRetry_transient_backoff
    (fun _ => (Except.error ⟨none, "", none, some 500, none, none⟩ : Except JsError Unit))
    3 2000
    (fun _ => ⟨⟨none, "", none, some 500, none, none⟩, rfl, by decide⟩)).2.1]
  decide

/-- C6: a failure not classified as transient (status outside
{500,502,503,504} and no network-failure substring in the extracted
message) settles after exactly 1 attempt with no backoff wait, propagating
the very same error value unaltered; and when every retry is consumed by
transient failures, the final attempt's error is likewise propagated
unaltered. -/
theorem withRetry_nonTransient_propagation {α : Type} (fn : Nat → Except JsError α)
    (N d : Nat) (e : JsError) :
    (fn 0 = Except.error e → isTransient e = false →
      withRetry fn N d = ⟨Except.error e, 1, []⟩) ∧
    ((∀ j, j < N → ∃ e2, fn j = Except.error e2 ∧ isTransient e2 = true) →
      fn N = Except.error e →
      (withRetry fn N d).result = Except.error e) := by
  constructor
  · intro he ht
    rw [withRetry]
    cases N with
    | zero => rw [withRetryFrom_err0 fn 0 d e he]
    | succ n =>
      rw [withRetryFrom_errS fn 0 n d e he, if_neg]
      simp [ht]
  · intro hlt hN
    rw [withRetry]
    refine withRetryFrom_exhausted fn e N 0 d ?_ ?_
    · intro j hj
      obtain ⟨e2, h2, t2⟩ := hlt j hj
      rw [Nat.zero_add]
      exact ⟨e2, h2, t2⟩
    · rwa [Nat.zero_add]

theorem withRetry_nonTransient_propagation_witness :
    withRetry (fun _ => (Except.error (mkError "Bad request") : Except JsError Unit))
      3 2000 = ⟨Except.error (mkError "Bad request"), 1, []⟩ :=
  (withRetry_nonTransient_propagation
    (fun _ => (Except.error (mkError "Bad request") : Except JsError Unit))
    3 2000 (mkError "Bad request")).1 rfl (by decide)

/-- C7: the four prompt constructors are pure functions of their arguments;
two calls with identical inputs yield byte-identical output strings (the
embedding is a total function, so no side effects exist). -/
theorem prompt_construction_deterministic :
    ∀ (c : PartialCharacter) (s : PartialScene) (p : ScriptPanel)
      (roster : List Character) (sc : Option Scene),
      constructCharacterPrompt c = constructCharacterPrompt c ∧
      constructScenePrompt s = constructScenePrompt s ∧
      constructSceneGridPrompt s = constructSceneGridPrompt s ∧
      constructPanelPrompt p roster sc = constructPanelPrompt p roster sc :=
  fun _ _ _ _ _ => ⟨rfl, rfl, rfl, rfl⟩

/-- C9: every network-bound operation resolves its credential as the stored
override first, the process-level default only when the override is falsy;
when both are falsy getAI fails with the dedicated missing-credential
error, and each operation then yields exactly that error for every
possible provider response, i.e. before consulting the network at all. -/
theorem credential_resolution :
    (∀ lk ek : Option String, truthyStr lk = true →
      getAI lk ek = Except.ok (lk.getD "")) ∧
    (∀ lk ek : Option String, truthyStr lk = false → truthyStr ek = true →
      getAI lk ek = Except.ok (ek.getD "")) ∧
    (∀ lk ek : Option String, truthyStr lk = false → truthyStr ek = false →
      getAI lk ek = Except.error (mkError "API Key is missing. Please set it in Settings.")) ∧
    (∀ (lk ek : Option String) (e : JsError), getAI lk ek = Except.error e →
      (∀ fn parse, extractWorldInfo lk ek fn parse = Except.error e) ∧
      (∀ prompt ar call1 call2,
        generateImage lk ek prompt ar call1 call2 = Except.error e) ∧
      (∀ fn parse, analyzeScript lk ek fn parse = Except.error e) ∧
      (∀ fn, generateSpeech lk ek fn = Except.error e)) := by
  refine ⟨?_, ?_, ?_, ?_⟩
  · intro lk ek h
    simp [getAI, h]
  · intro lk ek h1 h2
    simp [getAI, h1, h2]
  · intro lk ek h1 h2
    simp [getAI, h1, h2]
  · intro lk ek e hget
    refine ⟨?_, ?_, ?_, ?_⟩
    · intro fn parse
      simp [extractWorldInfo, hget]
    · intro prompt ar call1 call2
      simp [generateImage, hget]
    · intro fn parse
      simp [analyzeScript, hget]
    · intro fn
      simp [generateSpeech, hget]

theorem credential_resolution_witness :
    extractWorldInfo none none (fun _ => Except.ok ⟨some "x"⟩) none =
      Except.error (mkError "API Key is missing. Please set it in Settings.") :=
  (credential_resolution.2.2.2 none none
    (mkError "API Key is missing. Please set it in Settings.")
    (credential_resolution.2.2.1 none none rfl rfl)).1
    (fun _ => Except.ok ⟨some "x"⟩) none

/-- C3: when the Tier-1 response carries a text part and no inline image
part, generateImage proceeds to Tier 2 with the dedicated image model
requesting one JPEG image at the given aspect ratio; a Tier-2 image
payload is returned as a JPEG data URI with no error; if Tier 2 fails
(error or no payload) the raised error is Tier 1's captured refusal
diagnostic (which exists whenever Tier 1 produced a text part, so Tier 2's
own error is never surfaced in that case). -/
theorem generateImage_tier_fallback
    (lk ek : Option String) (key : String) (prompt ar : String)
    (call1 : Tier1Request → Nat → Except JsError Tier1Resp)
    (call2 : Tier2Request → Nat → Except JsError Tier2Resp)
    (resp : Tier1Resp)
    (hkey : getAI lk ek = Except.ok key)
    (h1 : (withRetry (call1 ⟨"gemini-2.5-flash-image", prompt, ar⟩) 2 2000).result =
      Except.ok resp)
    (hnoimg : ∀ p, p ∈ resp.parts → p.inlineData = none)
    (htext : ∃ p, p ∈ resp.parts ∧ truthyStr p.text = true) :
    (∀ r2 b,
      (withRetry (call2 (tier2RequestOf prompt ar)) 2 2000).result = Except.ok r2 →
      r2.imageBytes = some b → b ≠ "" →
      generateImage lk ek prompt ar call1 call2 =
        Except.ok ("data:image/jpeg;base64," ++ b)) ∧
    (∀ e2,
      (withRetry (call2 (tier2RequestOf prompt ar)) 2 2000).result = Except.error e2 →
      generateImage lk ek prompt ar call1 call2 = Except.error (refusalDiag resp)) ∧
    (∀ r2,
      (withRetry (call2 (tier2RequestOf prompt ar)) 2 2000).result = Except.ok r2 →
      r2.imageBytes = none ∨ r2.imageBytes = some "" →
      generateImage lk ek prompt ar call1 call2 = Except.error (refusalDiag resp)) ∧
    (∃ p, p ∈ resp.parts ∧ truthyStr p.text = true ∧
      refusalDiag resp = mkError ("AI Refusal: " ++ jsSubstr (p.text.getD "") 100 ++ "...")) ∧
    tier2RequestOf prompt ar = ⟨"imagen-3.0-generate-001", prompt, 1, ar, "image/jpeg"⟩ := by
  have hfind : resp.parts.find? (fun p => p.inlineData.isSome) = none := by
    apply List.find?_eq_none.mpr
    intro p hp
    simp [hnoimg p hp]
  refine ⟨?_, ?_, ?_, ?_, rfl⟩
  · intro r2 b h2 hb hbne
    simp [generateImage, hkey, h1, hfind, h2, hb, hbne]
  · intro e2 h2
    simp [generateImage, hkey, h1, hfind, h2]
  · intro r2 h2 hcase
    cases hcase with
    | inl hn => simp [generateImage, hkey, h1, hfind, h2, hn]
    | inr he => simp [generateImage, hkey, h1, hfind, h2, he]
  · have hne : resp.parts.find? (fun p => truthyStr p.text) ≠ none := by
      intro hnone
      obtain ⟨p0, hp0, ht0⟩ := htext
      have := List.find?_eq_none.mp hnone p0 hp0
      simp [ht0] at this
    obtain ⟨pf, hpf⟩ := Option.ne_none_iff_exists'.mp hne
    exact ⟨pf, List.mem_of_find?_eq_some hpf,
      @List.find?_some GenPart (fun p => truthyStr p.text) pf resp.parts hpf,
      by simp [refusalDiag, hpf]⟩

theorem generateImage_tier_fallback_witness :
    generateImage (some "k") none "p" "1:1"
      (fun _ _ => Except.ok ⟨[⟨none, some "cannot draw"⟩]⟩)
      (fun _ _ => Except.ok ⟨some "QUJD"⟩) =
      Except.ok ("data:image/jpeg;base64,QUJD") :=
  (generateImage_tier_fallback (some "k") none "k" "p" "1:1"
    (fun _ _ => Except.ok ⟨[⟨none, some "cannot draw"⟩]⟩)
    (fun _ _ => Except.ok ⟨some "QUJD"⟩)
    ⟨[⟨none, some "cannot draw"⟩]⟩ rfl rfl
    (fun p hp => by rw [List.mem_singleton.mp hp])
    ⟨⟨none, some "cannot draw"⟩, List.mem_singleton.mpr rfl, rfl⟩).1
    ⟨some "QUJD"⟩ "QUJD" rfl rfl (by decide)

/-- C8: extractWorldInfo fails with the entity-analysis parse error when
the response body text is absent (or the falsy empty string), fails with
the invalid-JSON error when JSON.parse throws, and on a successful parse
defaults the characters and scenes members to the empty array whenever the
corresponding field is missing from the parsed object. -/
theorem extractWorldInfo_parse_contract
    (lk ek : Option String) (key : String) (hkey : getAI lk ek = Except.ok key)
    (fn : Nat → Except JsError GenResp) (r : GenResp)
    (h1 : (withRetry fn 3 2000).result = Except.ok r) :
    (r.text = none → ∀ parse, extractWorldInfo lk ek fn parse =
      Except.error (mkError "Failed to analyze script entities")) ∧
    (r.text = some "" → ∀ parse, extractWorldInfo lk ek fn parse =
      Except.error (mkError "Failed to analyze script entities")) ∧
    (∀ t, r.text = some t → t ≠ "" → extractWorldInfo lk ek fn none =
      Except.error (mkError "Invalid JSON response from AI")) ∧
    (∀ t v w, r.text = some t → t ≠ "" →
      extractWorldInfo lk ek fn (some v) = Except.ok w →
      (jsGetField v "characters" = Except.ok none → w.characters = JsValue.arr []) ∧
      (jsGetField v "scenes" = Except.ok none → w.scenes = JsValue.arr [])) := by
  refine ⟨?_, ?_, ?_, ?_⟩
  · intro ht parse
    simp [extractWorldInfo, hkey, h1, ht, truthyStr]
  · intro ht parse
    simp [extractWorldInfo, hkey, h1, ht, truthyStr]
  · intro t ht htne
    simp [extractWorldInfo, hkey, h1, ht, truthyStr, htne]
  · intro t v w ht htne hw
    cases hc : jsGetField v "characters" with
    | error e =>
      simp [extractWorldInfo, hkey, h1, ht, truthyStr, htne, hc] at hw
    | ok cf =>
      cases hs : jsGetField v "scenes" with
      | error e =>
        simp [extractWorldInfo, hkey, h1, ht, truthyStr, htne, hc, hs] at hw
      | ok sf =>
        simp [extractWorldInfo, hkey, h1, ht, truthyStr, htne, hc, hs] at hw
        constructor
        · intro hcn
          rw [← hw, Except.ok.inj hcn]
          simp [orEmptyArr]
        · intro hsn
          rw [← hw, Except.ok.inj hsn]
          simp [orEmptyArr]

theorem extractWorldInfo_parse_contract_witness :
    extractWorldInfo (some "k") none (fun _ => Except.ok ⟨some "oops"⟩) none =
      Except.error (mkError "Invalid JSON response from AI") :=
  (extractWorldInfo_parse_contract (some "k") none "k" rfl
    (fun _ => Except.ok ⟨some "oops"⟩) ⟨some "oops"⟩ rfl).2.2.1 "oops" rfl (by decide)

theorem panelOfJs_ok {p : JsValue} {panel : ScriptPanel}
    (h : panelOfJs p = Except.ok panel) : panel = panelFields p := by
  unfold panelOfJs at h
  split at h
  · exact Except.noConfusion h
  · exact (Except.ok.inj h).symm

/-- C10 (amended): analyzeScript returns the empty panel list (no error)
when the parsed body is valid JSON but not an array (that path performs no
member access); an array element on which member access throws — a null
element, as in the valid-JSON body "[null]" — makes the map callback throw
and analyzeScript raises the invalid-JSON error instead of returning
panels; an array whose elements all admit member access is normalized
element-wise, where a non-string shot_type yields cameraAngle
"Medium Shot", a non-string dialogue_text yields the empty dialogue, and
a non-array characters_in_shot yields an empty charactersPresent list. -/
theorem analyzeScript_normalization
    (lk ek : Option String) (key : String) (hkey : getAI lk ek = Except.ok key)
    (fn : Nat → Except JsError GenResp) (r : GenResp) (t : String)
    (h1 : (withRetry fn 3 2000).result = Except.ok r)
    (ht : r.text = some t) (htne : t ≠ "") :
    (∀ v, jsIsArray v = false → analyzeScript lk ek fn (some v) = Except.ok []) ∧
    (∀ xs panels, xs.mapM panelOfJs = Except.ok panels →
      analyzeScript lk ek fn (some (JsValue.arr xs)) = Except.ok panels) ∧
    (∀ xs, xs.mapM panelOfJs = Except.error () →
      analyzeScript lk ek fn (some (JsValue.arr xs)) =
        Except.error (mkError "Invalid JSON response from AI")) ∧
    (∀ p panel, panelOfJs p = Except.ok panel →
      (fieldIsStr p "shot_type" = false → panel.cameraAngle = "Medium Shot") ∧
      (fieldIsStr p "dialogue_text" = false → panel.dialogue = "") ∧
      (fieldIsArr p "characters_in_shot" = false →
        panel.charactersPresent = [])) := by
  refine ⟨?_, ?_, ?_, ?_⟩
  · intro v hv
    cases v <;> simp_all [analyzeScript, hkey, h1, ht, truthyStr, htne, jsIsArray]
  · intro xs panels hm
    rw [List.mapM] at hm
    simp [analyzeScript, hkey, h1, ht, truthyStr, htne, hm]
  · intro xs hm
    rw [List.mapM] at hm
    simp [analyzeScript, hkey, h1, ht, truthyStr, htne, hm]
  · intro p panel hp
    rw [panelOfJs_ok hp]
    refine ⟨?_, ?_, ?_⟩
    · intro h
      unfold fieldIsStr at h
      simp only [panelFields]
      cases hf : jsGetField p "shot_type" with
      | error e => rfl
      | ok ov =>
        cases ov with
        | none => rfl
        | some val => cases val <;> simp_all
    · intro h
      unfold fieldIsStr at h
      simp only [panelFields, dialogueOf]
      cases hf : jsGetField p "dialogue_text" with
      | error e => rfl
      | ok ov =>
        cases ov with
        | none => rfl
        | some val => cases val <;> simp_all
    · intro h
      unfold fieldIsArr at h
      simp only [panelFields, charsOf]
      cases hf : jsGetField p "characters_in_shot" with
      | error e => rfl
      | ok ov =>
        cases ov with
        | none => rfl
        | some val => cases val <;> simp_all [jsIsArray]

/-- C10 counterexample: the valid-JSON body "[null]" parses to an array
whose single element is null; the map callback's first member access
throws there, so analyzeScript raises the invalid-JSON error instead of
returning a panel with the claimed normalized defaults. -/
theorem analyzeScript_normalization_counterexample :
    panelOfJs JsValue.null = Except.error () ∧
    analyzeScript (some "k") none (fun _ => Except.ok ⟨some "[null]"⟩)
      (some (JsValue.arr [JsValue.null])) =
      Except.error (mkError "Invalid JSON response from AI") :=
  ⟨rfl, rfl⟩

theorem analyzeScript_normalization_witness :
    analyzeScript (some "k") none (fun _ => Except.ok ⟨some "x"⟩)
      (some (JsValue.str "not an array")) = Except.ok [] :=
  (analyzeScript_normalization (some "k") none "k" rfl
    (fun _ => Except.ok ⟨some "x"⟩) ⟨some "x"⟩ "x" rfl rfl (by decide)).1
    (JsValue.str "not an array") rfl

theorem leadMatch_self_append (l t : List Char) : leadMatch l (l ++ t) = true := by
  induction l with
  | nil => rfl
  | cons c cs ih => simp [leadMatch, ih]

theorem scanFor_of_leadMatch (n h : List Char) (hm : leadMatch n h = true) :
    scanFor n h = true := by
  cases h with
  | nil => simpa [scanFor] using hm
  | cons x xs => simp [scanFor, hm]

theorem scanFor_append_left (n t : List Char) :
    ∀ l, scanFor n (l ++ (n ++ t)) = true := by
  intro l
  induction l with
  | nil => exact scanFor_of_leadMatch n (n ++ t) (leadMatch_self_append n t)
  | cons c cs ih => simp [scanFor, ih]

theorem includes_sandwich (a x r : String) : includes (a ++ x ++ r) x = true := by
  unfold includes
  have hd : (a ++ x ++ r).data = a.data ++ (x.data ++ r.data) :=
    List.append_assoc a.data x.data r.data
  rw [hd]
  exact scanFor_append_left x.data r.data a.data

/-- C5: for every panel element that analyzeScript successfully
normalizes (panelOfJs returns a panel, i.e. member access on the element
succeeds): when the visual-action text is missing, empty (or whitespace),
or the literal sentinel "No description generated.", the returned
description is synthesized: with dialogue present it is
"<names joined by '&', or 'Character' if that join is empty> saying:
\"<first 15 UTF-16 units of the dialogue>...\". Cinematic lighting,
detailed expression." (so for the dialogue 你好吗最近怎么样, itself shorter
than 15 units, the synthesized description contains the whole dialogue);
with no dialogue it is the generic establishing-shot description; and the
returned panelNumber is 0 whenever panel_id is missing or non-numeric. -/
theorem analyzeScript_descRecovery :
    (∀ (p : JsValue) (panel : ScriptPanel), panelOfJs p = Except.ok panel →
      descNeedsFallback p = true →
      (∀ d, dialogueOf p = d → d ≠ "" →
        panel.description =
          (if String.intercalate "&" (charsOf p) == "" then "Character"
           else String.intercalate "&" (charsOf p)) ++
          " saying: \"" ++ jsSubstr d 15 ++
          "...\". Cinematic lighting, detailed expression.") ∧
      (dialogueOf p = "你好吗最近怎么样" →
        includes panel.description "你好吗最近怎么样" = true) ∧
      (dialogueOf p = "" → panel.description =
        "Cinematic establishing shot, detailed environment, 8k resolution.")) ∧
    (∀ (p : JsValue) (panel : ScriptPanel), panelOfJs p = Except.ok panel →
      fieldIsNum p "panel_id" = false → panel.panelNumber = 0) ∧
    jsSubstr "你好吗最近怎么样" 15 = "你好吗最近怎么样" := by
  refine ⟨fun p panel hp hfall => ?_, ?_, by decide⟩
  · rw [panelOfJs_ok hp]
    have hdesc : (panelFields p).description = synthDesc p := by
      simp [panelFields, hfall]
    have hmain : ∀ d, dialogueOf p = d → d ≠ "" →
        (panelFields p).description =
          (if String.intercalate "&" (charsOf p) == "" then "Character"
           else String.intercalate "&" (charsOf p)) ++
          " saying: \"" ++ jsSubstr d 15 ++
          "...\". Cinematic lighting, detailed expression." := by
      intro d hd hdne
      rw [hdesc]
      simp only [synthDesc, hd]
      rw [if_neg (by simp [hdne])]
    refine ⟨hmain, ?_, ?_⟩
    · intro hdia
      rw [hmain "你好吗最近怎么样" hdia (by decide)]
      rw [show jsSubstr "你好吗最近怎么样" 15 = "你好吗最近怎么样" by decide]
      exact includes_sandwich _ _ _
    · intro hdia0
      rw [hdesc]
      simp [synthDesc, hdia0]
  · intro p panel hp h
    rw [panelOfJs_ok hp]
    unfold fieldIsNum at h
    simp only [panelFields]
    cases hf : jsGetField p "panel_id" with
    | error e => rfl
    | ok ov =>
      cases ov with
      | none => rfl
      | some val => cases val <;> simp_all

theorem analyzeScript_descRecovery_witness :
    includes
      ((⟨0, "Alice saying: \"你好吗最近怎么样...\". Cinematic lighting, detailed expression.",
        ["Alice"], "你好吗最近怎么样", "Medium Shot"⟩ : ScriptPanel).description)
      "你好吗最近怎么样" = true :=
  ((analyzeScript_descRecovery.1
    (JsValue.obj [("dialogue_text", JsValue.str "你好吗最近怎么样"),
      ("characters_in_shot", JsValue.arr [JsValue.str "Alice"])])
    ⟨0, "Alice saying: \"你好吗最近怎么样...\". Cinematic lighting, detailed expression.",
      ["Alice"], "你好吗最近怎么样", "Medium Shot"⟩
    rfl (by decide)).2.1 (by decide))

/-- Concrete roster entry for the fuzzy-matching example. -/
def aliceExample : Character :=
  ⟨"c1", "Alice", "heroine", "ALICE_DNA", none, none⟩

/-- Concrete panel naming one fuzzy-matchable and one unmatched character. -/
def panelExample : ScriptPanel :=
  ⟨1, "Two people talk", ["AliceSmith", "Bob"], "hi", "Wide"⟩

set_option maxRecDepth 8192 in
/-- C4: constructPanelPrompt resolves each panel character name against the
roster with the predicate "exact name match, or substring containment in
either direction", taking the first roster entry satisfying it; a match
injects that character's visual DNA line into the [CHARACTERS] section and
no match yields the generic placeholder line; concretely a roster holding
only Alice resolves the panel name "AliceSmith" to Alice's visual DNA
while "Bob" gets the placeholder. -/
theorem constructPanelPrompt_fuzzyMatch :
    (∀ (roster : List Character) (nm : String) (c : Character),
      resolveChar roster nm = some c →
        charLine roster nm = "\n- (" ++ nm ++ "): " ++ c.visualPrompt ∧
        c ∈ roster ∧
        (c.name = nm ∨ includes nm c.name = true ∨ includes c.name nm = true)) ∧
    (∀ (roster : List Character) (nm : String),
      resolveChar roster nm = none →
        charLine roster nm = "\n- (" ++ nm ++ "): Generic anime character.") ∧
    (∀ (roster : List Character) (nm : String),
      (∀ c, c ∈ roster → c.name ≠ nm ∧ includes nm c.name = false ∧
        includes c.name nm = false) →
      resolveChar roster nm = none) ∧
    resolveChar [aliceExample] "AliceSmith" = some aliceExample ∧
    resolveChar [aliceExample] "Bob" = none ∧
    includes (constructPanelPrompt panelExample [aliceExample] none)
      "\n- (AliceSmith): ALICE_DNA" = true ∧
    includes (constructPanelPrompt panelExample [aliceExample] none)
      "\n- (Bob): Generic anime character." = true := by
  refine ⟨?_, ?_, ?_, ?_, ?_, ?_, ?_⟩
  · intro roster nm c h
    refine ⟨?_, List.mem_of_find?_eq_some h, ?_⟩
    · simp [charLine, h]
    · have hp := @List.find?_some Character
        (fun c => c.name == nm || includes nm c.name || includes c.name nm)
        c roster h
      simp only [Bool.or_eq_true, beq_iff_eq] at hp
      tauto
  · intro roster nm h
    simp [charLine, h]
  · intro roster nm h
    apply List.find?_eq_none.mpr
    intro c hc
    obtain ⟨h1, h2, h3⟩ := h c hc
    simp [h1, h2, h3]
  · rfl
  · rfl
  · decide
  · decide

theorem constructPanelPrompt_fuzzyMatch_witness :
    charLine [aliceExample] "AliceSmith" = "\n- (AliceSmith): ALICE_DNA" := by
  rw [(constructPanelPrompt_fuzzyMatch.1 [aliceExample] "AliceSmith" aliceExample
    rfl).1]
  decide
